import Mathlib

/-!
Verification development for the pt-consent-demo repository.

The definitions below are shallow embeddings of the repository's
TypeScript client code and of the Python backend service code contained
in `backend/IMPLEMENTATION_GUIDE.md`.  Machine details of the JavaScript
runtime (string truthiness, `Date` parsing of `YYYY-MM-DD` strings,
`setFullYear`) are modelled explicitly; times are modelled as integers
(milliseconds for the client, minutes for the backend).
-/

set_option autoImplicit false

namespace JsRuntime

/-- JavaScript `s.toLowerCase()` restricted to ASCII data. -/
def jsToLower (s : String) : String := ⟨s.data.map Char.toLower⟩

/-- JavaScript `s.trim()`: strips leading and trailing whitespace. -/
def jsTrim (s : String) : String :=
  ⟨((s.data.dropWhile Char.isWhitespace).reverse.dropWhile
      Char.isWhitespace).reverse⟩

/-- JavaScript `a || b` on strings: the empty string is falsy. -/
def strOr (a b : String) : String := if a = "" then b else a

/-- Proleptic-Gregorian leap-year test, as used by the JS `Date` object. -/
def isLeapYear (y : Int) : Bool := (y % 4 == 0 && y % 100 != 0) || y % 400 == 0

/-- Number of days in month `m` (1-12) of year `y`. -/
def daysInMonth (y : Int) (m : Nat) : Nat :=
  if m = 2 then (if isLeapYear y then 29 else 28)
  else if m = 4 ∨ m = 6 ∨ m = 9 ∨ m = 11 then 30 else 31

/-- Days from the Unix epoch (1970-01-01) to civil date `(y, m, d)`;
the standard days-from-civil algorithm over the proleptic Gregorian
calendar, matching the JS `Date` `MakeDay` computation (which also rolls
an overflowing day-of-month forward into the next month). -/
def civilToDays (y : Int) (m d : Nat) : Int :=
  let y2 : Int := if m ≤ 2 then y - 1 else y
  let era : Int := Int.fdiv y2 400
  let yoe : Int := y2 - era * 400
  let mp : Int := (Int.ofNat m + 9) % 12
  let doy : Int := (153 * mp + 2) / 5 + (Int.ofNat d - 1)
  let doe : Int := yoe * 365 + Int.fdiv yoe 4 - Int.fdiv yoe 100 + doy
  era * 146097 + doe - 719468

/-- A date string of shape `YYYY-MM-DD` denotes a real calendar date
(this is the condition under which the JS `Date` ISO parse does not
produce `Invalid Date`). -/
def isValidYMD (y : Int) (m d : Nat) : Bool :=
  1 ≤ m && m ≤ 12 && 1 ≤ d && d ≤ daysInMonth y m

def msPerDay : Int := 86400000

/-- A reading of the JS wall clock (`new Date()`), given by its UTC
civil components; the runtime's local time zone is modelled as UTC. -/
structure JsInstant where
  year : Int
  month : Nat
  day : Nat
  msOfDay : Nat
deriving DecidableEq

/-- `getTime()` of the instant, in milliseconds since the epoch. -/
def JsInstant.toMs (t : JsInstant) : Int :=
  civilToDays t.year t.month t.day * msPerDay + Int.ofNat t.msOfDay

/-- `getTime()` of `new Date(s)` for a `YYYY-MM-DD` string parsed as
UTC midnight of `(y, m, d)`. -/
def ymdToMs (y : Int) (m d : Nat) : Int := civilToDays y m d * msPerDay

/-- The timestamp produced by `minDate = new Date(); minDate.setFullYear(
minDate.getFullYear() - 120)`: the year is replaced and an overflowing
day-of-month (Feb 29 in a non-leap target year) rolls forward, which is
exactly `MakeDay(y - 120, m, d) = civilToDays (y-120) m 1 + (d - 1)`. -/
def minDateMs (t : JsInstant) : Int :=
  (civilToDays (t.year - 120) t.month 1 + (Int.ofNat t.day - 1)) * msPerDay
    + Int.ofNat t.msOfDay

def natOfDigits (cs : List Char) : Nat :=
  cs.foldl (fun a c => a * 10 + (c.toNat - 48)) 0

/-- The regex test `/^\d{4}$/.test s`. -/
def matchesD4 (s : String) : Bool :=
  match s.data with
  | [a, b, c, d] => a.isDigit && b.isDigit && c.isDigit && d.isDigit
  | _ => false

/-- The regex test for `/^\d{4}-\d{2}-\d{2}$/`. -/
def matchesYMDFormat (s : String) : Bool :=
  match s.data with
  | [a, b, c, d, h1, e, f, h2, g, k] =>
    a.isDigit && b.isDigit && c.isDigit && d.isDigit && h1 == '-' &&
    e.isDigit && f.isDigit && h2 == '-' && g.isDigit && k.isDigit
  | _ => false

/-- Year field of a format-checked `YYYY-MM-DD` string. -/
def yearOf (s : String) : Int := Int.ofNat (natOfDigits (s.data.take 4))

/-- Month field of a format-checked `YYYY-MM-DD` string. -/
def monthOf (s : String) : Nat := natOfDigits ((s.data.drop 5).take 2)

/-- Day field of a format-checked `YYYY-MM-DD` string. -/
def dayOf (s : String) : Nat := natOfDigits ((s.data.drop 8).take 2)

end JsRuntime

namespace KBAClient

open JsRuntime

/-- `KBAData` input of the 2-field client form (`frontend/src/services/
kba.service.ts`); a missing field is the empty string, which is falsy
in JS. -/
structure KBAData where
  ssnLast4 : String
  dob : String
deriving DecidableEq

/-- Return shape `{ valid: boolean; error?: string }`. -/
structure ValidationResult where
  valid : Bool
  error : Option String
deriving DecidableEq

/-- Embedding of `KBAService.validateKBAData` from
`frontend/src/services/kba.service.ts` (lines 37-98), parameterised by
the wall-clock reading `now` used for `new Date()`. -/
def validateKBAData (now : JsInstant) (kbaData : KBAData) : ValidationResult :=
  if kbaData.ssnLast4 = "" ∨ kbaData.ssnLast4.length ≠ 4 then
    ⟨false, some "SSN last 4 digits must be exactly 4 digits"⟩
  else if ¬ matchesD4 kbaData.ssnLast4 then
    ⟨false, some "SSN last 4 digits must contain only numbers"⟩
  else if kbaData.dob = "" then
    ⟨false, some "Date of birth is required"⟩
  else if ¬ matchesYMDFormat kbaData.dob then
    ⟨false, some "Date of birth must be in YYYY-MM-DD format"⟩
  else if ¬ isValidYMD (yearOf kbaData.dob) (monthOf kbaData.dob) (dayOf kbaData.dob) then
    ⟨false, some "Invalid date of birth"⟩
  else if ymdToMs (yearOf kbaData.dob) (monthOf kbaData.dob) (dayOf kbaData.dob) > now.toMs then
    ⟨false, some "Date of birth cannot be in the future"⟩
  else if ymdToMs (yearOf kbaData.dob) (monthOf kbaData.dob) (dayOf kbaData.dob) < minDateMs now then
    ⟨false, some "Date of birth is too far in the past"⟩
  else
    ⟨true, none⟩

/-- A fixed clock reading used for concrete test vectors:
2026-10-11, midday UTC. -/
def sampleNow : JsInstant := ⟨2026, 10, 11, 43200000⟩

end KBAClient

namespace Timeline

/-- Payload supplied to `addEvent` (an `ActivityEvent` without `id` and
`timestamp`), from `ActivityTimelineContext` (`src/unnamed/part_004`). -/
structure ActivityEventInput where
  type : String
  title : String
  description : Option String
  status : Option String
deriving DecidableEq

/-- A stored `ActivityEvent`: the payload plus the generated `id` and
`timestamp`.  Id generation (`Date.now()` + random suffix) and the
timestamp are modelled by one strictly increasing counter. -/
structure ActivityEvent where
  id : Nat
  timestamp : Nat
  payload : ActivityEventInput
deriving DecidableEq

/-- State held by `ActivityTimelineProvider`: the `events` list, the
`isPaused` flag, and the clock/id counter. -/
structure TimelineState where
  events : List ActivityEvent
  isPaused : Bool
  tick : Nat
deriving DecidableEq

/-- Embedding of `addEvent` (`src/unnamed/part_004`, lines 60-74):
a no-op while paused, otherwise prepends the new event and keeps the
first 100 entries (`[newEvent, ...prev].slice(0, 100)`). -/
def addEvent (st : TimelineState) (e : ActivityEventInput) : TimelineState :=
  if st.isPaused then st
  else
    { st with
        events := (⟨st.tick, st.tick, e⟩ :: st.events).take 100
        tick := st.tick + 1 }

/-- Embedding of `clearEvents`. -/
def clearEvents (st : TimelineState) : TimelineState := { st with events := [] }

/-- Embedding of `togglePause`. -/
def togglePause (st : TimelineState) : TimelineState :=
  { st with isPaused := !st.isPaused }

/-- One user-visible operation on the context. -/
inductive TimelineOp where
  | add (e : ActivityEventInput)
  | clear
  | pause
deriving DecidableEq

def timelineStep (st : TimelineState) : TimelineOp → TimelineState
  | .add e => addEvent st e
  | .clear => clearEvents st
  | .pause => togglePause st

/-- Running a sequence of operations against the provider state. -/
def runTimeline (st : TimelineState) (ops : List TimelineOp) : TimelineState :=
  ops.foldl timelineStep st

/-- Initial provider state: `useState([])`, `useState(false)`. -/
def initTimeline : TimelineState := ⟨[], false, 0⟩

/-- The events created by a run of accepted `addEvent` calls starting at
counter value `t`, in arrival order. -/
def mkEvents (t : Nat) : List ActivityEventInput → List ActivityEvent
  | [] => []
  | e :: es => ⟨t, t, e⟩ :: mkEvents (t + 1) es

/-- Invariant of the timeline provider state: at most 100 events, ids
strictly decreasing from the head (newest-first), all ids below the
counter. -/
def TimelineInv (st : TimelineState) : Prop :=
  st.events.length ≤ 100 ∧
  st.events.Pairwise (fun a b => b.id < a.id) ∧
  ∀ ev ∈ st.events, ev.id < st.tick

end Timeline

namespace ApiClientModel

open JsRuntime

/-- The part of an Axios error response relevant to `handleError`:
the HTTP status and the optional `message` field of the response body. -/
structure AxiosResponseInfo where
  status : Nat
  dataMessage : Option String
deriving DecidableEq

/-- Model of an `AxiosError`: `response` is present when the server
answered with an error status, `hasRequest` is the truthiness of
`error.request` (a request was actually sent), and `message` is the
transport's own message string. -/
structure AxiosErrorModel where
  response : Option AxiosResponseInfo
  hasRequest : Bool
  message : String
deriving DecidableEq

/-- Model of the `ApiError` produced by the client. -/
structure ApiErrorModel where
  message : String
  statusCode : Option Nat
  originalError : AxiosErrorModel
deriving DecidableEq

/-- Embedding of `ApiClient.handleError` (`src/unnamed/part_002`,
lines 78-96).  JS `||` chains treat the empty string and an absent
field alike, via `strOr`. -/
def handleError (e : AxiosErrorModel) : ApiErrorModel :=
  match e.response with
  | some r =>
    ⟨strOr (r.dataMessage.getD "") (strOr e.message "An error occurred"),
      some r.status, e⟩
  | none =>
    if e.hasRequest then
      ⟨"No response from server. Please check your connection.", none, e⟩
    else
      ⟨strOr e.message "Request failed", none, e⟩

/-- Modelled from the spec (claim wording, for comparison): the message
in case (a) is "the response body's message field or, failing that, the
transport's own message", and in case (c) "the transport's own
message", with no further fallback. -/
def handleErrorClaimed (e : AxiosErrorModel) : ApiErrorModel :=
  match e.response with
  | some r => ⟨r.dataMessage.getD e.message, some r.status, e⟩
  | none =>
    if e.hasRequest then
      ⟨"No response from server. Please check your connection.", none, e⟩
    else
      ⟨e.message, none, e⟩

end ApiClientModel

namespace Dashboard

/-- `ProviderWithConsent` as displayed by the consent dashboard. -/
structure ProviderWithConsent where
  id : String
  name : String
  address : Option String
  consented : Bool
deriving DecidableEq

/-- The optimistic update inside `handleToggleConsent`
(`ConsentDashboard.tsx`, lines 88-91): flip the targeted provider's
flag to `!currentStatus`, leave every other entry untouched. -/
def optimisticToggle (providers : List ProviderWithConsent)
    (providerId : String) (currentStatus : Bool) : List ProviderWithConsent :=
  providers.map fun p =>
    if p.id = providerId then { p with consented := !currentStatus } else p

/-- The two provider-list states a single run of `handleToggleConsent`
produces: the optimistic list set before the network call, and the
final list after the call settles. -/
structure ToggleRun where
  optimistic : List ProviderWithConsent
  final : List ProviderWithConsent
deriving DecidableEq

/-- Embedding of `handleToggleConsent` (`ConsentDashboard.tsx`, lines
77-129): snapshot `originalProviders`, set the optimistic list, and on
a failed `toggleConsent` call restore the snapshot (the success path
keeps the optimistic list). -/
def handleToggleConsent (providers : List ProviderWithConsent)
    (providerId : String) (currentStatus : Bool) (networkFails : Bool) :
    ToggleRun :=
  let originalProviders := providers
  let updated := optimisticToggle providers providerId currentStatus
  ⟨updated, if networkFails then originalProviders else updated⟩

end Dashboard

namespace Legacy

open JsRuntime

/-- Legacy `SharingPreference` (`src/types.ts`). -/
structure SharingPreference where
  providerId : String
  canShare : Bool
deriving DecidableEq

/-- Legacy `PatientAddress` (`src/types.ts`). -/
structure PatientAddress where
  street : String
  city : String
  state : String
  zip : String
deriving DecidableEq

/-- Legacy `Patient` (`src/types.ts`). -/
structure Patient where
  id : String
  name : String
  dob : String
  ssnLast4 : String
  address : PatientAddress
  medicaidId : String
  sharingPreferences : List SharingPreference
deriving DecidableEq

/-- `Partial<VerificationPayload>` (`src/types.ts`): every submitted
field may be absent. -/
structure VerificationPayload where
  fullName : Option String
  dob : Option String
  ssnLast4 : Option String
  address : Option String
  medicaidId : Option String
deriving DecidableEq

/-- Legacy `VerificationResult` (`src/types.ts`). -/
inductive VerificationResult where
  | perfect_match (patient : Patient)
  | no_match
deriving DecidableEq

/-- The single seeded `mockPatient` fixture (`src/unnamed/part_012`,
lines 16-33). -/
def mockPatient : Patient :=
  { id := "12345"
    name := "Alex Johnson"
    dob := "1985-05-15"
    ssnLast4 := "6789"
    address := ⟨"123 Main St", "Denver", "CO", "80202"⟩
    medicaidId := "A123456789"
    sharingPreferences :=
      [⟨"p001", true⟩, ⟨"p002", false⟩, ⟨"p003", true⟩, ⟨"p005", true⟩] }

/-- Embedding of `findAndVerifyPatient` (`src/unnamed/part_012`, lines
55-71): compares `fullName?.toLowerCase().trim()` against
`mockPatient.name.toLowerCase()`; a match is a `perfect_match` carrying
a deep copy of the fixture, anything else is `no_match`.  The artificial
delay is irrelevant to the result and is not modelled. -/
def findAndVerifyPatient (payload : VerificationPayload) : VerificationResult :=
  let isNameMatch :=
    payload.fullName.map (fun s => jsTrim (jsToLower s)) =
      some (jsToLower mockPatient.name)
  if isNameMatch then .perfect_match mockPatient else .no_match

/-- The module-level mutable state of the legacy mock API: the stored
patient fixture. -/
structure LegacyStore where
  patient : Patient
deriving DecidableEq

/-- Initial store: the seeded fixture. -/
def initStore : LegacyStore := ⟨mockPatient⟩

/-- Embedding of `getPatientData` (`src/unnamed/part_012`, lines 46-52):
returns a deep copy of the stored patient when the id matches, else
`null`; the store is read, never written. -/
def getPatientData (st : LegacyStore) (patientId : String) : Option Patient :=
  if patientId = st.patient.id then some st.patient else none

/-- Embedding of `updateSharingPreferences` (`src/unnamed/part_012`,
lines 84-93): when the id matches it builds
`{ ...mockPatient, sharingPreferences: newPreferences }` — a fresh
object — and resolves with a deep copy of it; the stored fixture is
never reassigned, so the store component of the result is unchanged.
A non-matching id rejects with "Patient not found". -/
def updateSharingPreferences (st : LegacyStore) (patientId : String)
    (newPreferences : List SharingPreference) :
    Except String Patient × LegacyStore :=
  if patientId = st.patient.id then
    (.ok { st.patient with sharingPreferences := newPreferences }, st)
  else
    (.error "Patient not found", st)

end Legacy

namespace Backend

/-- `Config.MAX_KBA_ATTEMPTS` (backend configuration, spec wording:
"KBA policy constants MAX_KBA_ATTEMPTS = 3"). -/
def MAX_KBA_ATTEMPTS : Nat := 3

/-- `Config.KBA_LOCKOUT_MINUTES` (= 30). -/
def KBA_LOCKOUT_MINUTES : Nat := 30

/-- Backend wall-clock readings (`datetime.utcnow()`), in minutes. -/
abbrev Time := Nat

/-- Modelled from the spec: `utils/security.py` is declared complete in
the implementation guide but its code is not in the inspected tree.
Per the spec it is a one-way hash for SSN-last-4 and DOB; modelled as an
injective tagging function. -/
def hash_value (s : String) : String := String.append "hashed:" s

/-- Modelled from the spec: the verify half of the hash pair — "accepts
plaintext + stored hash, returns boolean". -/
def verify_hash (plain stored : String) : Bool := hash_value plain == stored

/-- Backend user document (`users` collection): identity hashes plus
the KBA lockout state. -/
structure UserRecord where
  uid : String
  email : String
  ssn_hash : String
  dob_hash : String
  kba_attempts : Nat
  kba_locked_until : Option Time
  kba_verified : Bool
deriving DecidableEq

/-- Verification-token document (`verification_tokens` collection). -/
structure TokenRecord where
  token : String
  email : String
  created_at : Time
  expires_at : Time
  used : Bool
deriving DecidableEq

/-- Consent document (`consents` collection); `cid` is the document id
assigned at creation. -/
structure ConsentRow where
  cid : Nat
  user_id : String
  provider_id : String
  consented : Bool
deriving DecidableEq

/-- `AuditAction` enumeration (backend models). -/
inductive AuditAction where
  | KBA_VERIFIED
  | KBA_FAILED
  | CONSENT_GRANTED
  | CONSENT_REVOKED
  | CONSENT_UPDATED
  | LOGIN
  | LOGOUT
deriving DecidableEq

/-- Audit-log document (`audit_logs` collection). -/
structure AuditRow where
  user_id : String
  action : AuditAction
  provider_id : Option String
  timestamp : Time
  ip_address : Option String
deriving DecidableEq

/-- The document store: the collections the claims touch, plus a fresh
document-id counter for `consents`. -/
structure FirestoreDB where
  users : List UserRecord
  verification_tokens : List TokenRecord
  consents : List ConsentRow
  audit_logs : List AuditRow
  next_consent_id : Nat
deriving DecidableEq

/-- Modelled from the spec: `firestore_service.get_user` — CRUD façade
lookup in the `users` collection (§4.22). -/
def get_user (db : FirestoreDB) (uid : String) : Option UserRecord :=
  db.users.find? (fun u => u.uid == uid)

/-- The partial update dict passed to `update_user` by the KBA service:
each field is present (`some`) or absent (`none`). -/
structure UserKbaUpdate where
  kba_verified : Option Bool
  kba_attempts : Option Nat
  kba_locked_until : Option (Option Time)
deriving DecidableEq

def applyUserKbaUpdate (upd : UserKbaUpdate) (u : UserRecord) : UserRecord :=
  { u with
      kba_verified := upd.kba_verified.getD u.kba_verified
      kba_attempts := upd.kba_attempts.getD u.kba_attempts
      kba_locked_until := upd.kba_locked_until.getD u.kba_locked_until }

/-- Modelled from the spec: `firestore_service.update_user` — merges the
given fields into the document(s) keyed by `uid`. -/
def update_user (db : FirestoreDB) (uid : String) (upd : UserKbaUpdate) :
    FirestoreDB :=
  { db with
      users := db.users.map fun u =>
        if u.uid == uid then applyUserKbaUpdate upd u else u }

/-- Modelled from the spec: `firestore_service.get_verification_token`. -/
def get_verification_token (db : FirestoreDB) (token : String) :
    Option TokenRecord :=
  db.verification_tokens.find? (fun r => r.token == token)

/-- Modelled from the spec: `firestore_service.mark_token_used` — flips
`used` to true on the token document ("single consumption"). -/
def mark_token_used (db : FirestoreDB) (token : String) : FirestoreDB :=
  { db with
      verification_tokens := db.verification_tokens.map fun r =>
        if r.token == token then { r with used := true } else r }

/-- Modelled from the spec: `firestore_service.create_audit_log` —
append-only insert into `audit_logs`. -/
def create_audit_log (db : FirestoreDB) (row : AuditRow) : FirestoreDB :=
  { db with audit_logs := db.audit_logs ++ [row] }

/-- Embedding of `AuditService.log_action`
(`backend/IMPLEMENTATION_GUIDE.md`, lines 379-416): builds one audit row
stamped with the current time and persists it. -/
def log_action (db : FirestoreDB) (now : Time) (user_id : String)
    (action : AuditAction) (provider_id : Option String)
    (ip_address : Option String) : FirestoreDB :=
  create_audit_log db ⟨user_id, action, provider_id, now, ip_address⟩

/-- Embedding of `AuthService.verify_token`
(`backend/IMPLEMENTATION_GUIDE.md`, lines 93-119): `None` when the token
is unknown, already used, or expired; otherwise marks it used and
returns the associated email. -/
def verify_token (db : FirestoreDB) (now : Time) (token : String) :
    Option String × FirestoreDB :=
  match get_verification_token db token with
  | none => (none, db)
  | some token_data =>
    if token_data.used then (none, db)
    else if token_data.expires_at < now then (none, db)
    else (some token_data.email, mark_token_used db token)

/-- The Python guard `user.get('kba_locked_until')` followed by
`locked_until > datetime.utcnow()`: the lock is active when the field
is set to a still-future time. -/
def lockActive (kba_locked_until : Option Time) (now : Time) : Bool :=
  match kba_locked_until with
  | some locked_until => now < locked_until
  | none => false

/-- Result dict of `KBAService.verify_identity`. -/
structure VerifyResult where
  verified : Bool
  message : String
deriving DecidableEq

/-- Embedding of `KBAService.verify_identity`
(`backend/IMPLEMENTATION_GUIDE.md`, lines 160-240): unknown user and
active lockout are rejected before any comparison; a full SSN+DOB match
resets the lockout state and audits `KBA_VERIFIED`; any mismatch
increments `kba_attempts`, locks the account for `KBA_LOCKOUT_MINUTES`
once `MAX_KBA_ATTEMPTS` is reached, audits `KBA_FAILED`, and reports
either the remaining attempts or the lockout duration. -/
def verify_identity (db : FirestoreDB) (now : Time) (uid : String)
    (ssn_last4 : String) (dob : String) (ip_address : Option String) :
    VerifyResult × FirestoreDB :=
  match get_user db uid with
  | none => (⟨false, "User not found"⟩, db)
  | some user =>
    if lockActive user.kba_locked_until now then
      (⟨false, "Account temporarily locked. Try again later."⟩, db)
    else
      let ssn_match := verify_hash ssn_last4 user.ssn_hash
      let dob_match := verify_hash dob user.dob_hash
      if ssn_match && dob_match then
        let db1 := update_user db uid ⟨some true, some 0, some none⟩
        (⟨true, "Identity verified"⟩,
          log_action db1 now uid .KBA_VERIFIED none ip_address)
      else
        let attempts := user.kba_attempts + 1
        let upd : UserKbaUpdate :=
          if MAX_KBA_ATTEMPTS ≤ attempts then
            ⟨none, some attempts, some (some (now + KBA_LOCKOUT_MINUTES))⟩
          else
            ⟨none, some attempts, none⟩
        let db1 := update_user db uid upd
        let db2 := log_action db1 now uid .KBA_FAILED none ip_address
        let remaining : Int := (MAX_KBA_ATTEMPTS : Int) - (attempts : Int)
        let message :=
          if 0 < remaining then
            String.append "Incorrect information. "
              (String.append (toString remaining) " attempts remaining.")
          else
            String.append "Account locked for "
              (String.append (toString KBA_LOCKOUT_MINUTES) " minutes.")
        (⟨false, message⟩, db2)

/-- One call to `verify_identity`, for reasoning about call sequences. -/
structure KbaCall where
  now : Time
  uid : String
  ssn_last4 : String
  dob : String
  ip_address : Option String
deriving DecidableEq

/-- The database state after a sequence of `verify_identity` calls. -/
def runVerifyCalls (db : FirestoreDB) (calls : List KbaCall) : FirestoreDB :=
  calls.foldl
    (fun d c => (verify_identity d c.now c.uid c.ssn_last4 c.dob c.ip_address).2)
    db

/-- Modelled from the spec: `firestore_service.get_user_consent_for_provider`
— the consent row for one `(user, provider)` pair. -/
def get_user_consent_for_provider (db : FirestoreDB)
    (user_id provider_id : String) : Option ConsentRow :=
  db.consents.find? (fun c => c.user_id == user_id && c.provider_id == provider_id)

/-- Modelled from the spec: `firestore_service.update_consent` — merges
`{consented}` into the consent document with the given id. -/
def update_consent (db : FirestoreDB) (cid : Nat) (consented : Bool) :
    FirestoreDB :=
  { db with
      consents := db.consents.map fun c =>
        if c.cid == cid then { c with consented := consented } else c }

/-- Modelled from the spec: `firestore_service.create_consent` — inserts
a new consent document and returns its fresh id. -/
def create_consent (db : FirestoreDB) (user_id provider_id : String)
    (consented : Bool) : Nat × FirestoreDB :=
  (db.next_consent_id,
    { db with
        consents :=
          db.consents ++ [⟨db.next_consent_id, user_id, provider_id, consented⟩]
        next_consent_id := db.next_consent_id + 1 })

/-- Embedding of `ConsentService.toggle_consent`
(`backend/IMPLEMENTATION_GUIDE.md`, lines 289-335): update the existing
`(user, provider)` row if one exists, else create one; then audit
`CONSENT_GRANTED` or `CONSENT_REVOKED` according to the new state. -/
def toggle_consent (db : FirestoreDB) (now : Time)
    (user_id provider_id : String) (consented : Bool)
    (ip_address : Option String) : Nat × FirestoreDB :=
  let action : AuditAction :=
    if consented then .CONSENT_GRANTED else .CONSENT_REVOKED
  match get_user_consent_for_provider db user_id provider_id with
  | some existing =>
    let db1 := update_consent db existing.cid consented
    (existing.cid, log_action db1 now user_id action (some provider_id) ip_address)
  | none =>
    let r := create_consent db user_id provider_id consented
    (r.1, log_action r.2 now user_id action (some provider_id) ip_address)

/-- Number of consent rows stored for one `(user, provider)` pair. -/
def countPair (db : FirestoreDB) (user_id provider_id : String) : Nat :=
  (db.consents.filter
    (fun c => c.user_id == user_id && c.provider_id == provider_id)).length

/-- Number of `CONSENT_GRANTED` audit entries for one pair. -/
def grantedCount (db : FirestoreDB) (user_id provider_id : String) : Nat :=
  (db.audit_logs.filter
    (fun a => a.user_id == user_id && a.provider_id == some provider_id &&
      a.action == AuditAction.CONSENT_GRANTED)).length

/-- The consent rows stored for one `(user, provider)` pair. -/
def pairFilter (db : FirestoreDB) (u p : String) : List ConsentRow :=
  db.consents.filter (fun c => c.user_id == u && c.provider_id == p)

end Backend

section ClaimC5

open JsRuntime KBAClient

/-- C5: `validateKBAData` applies its rules in the stated order,
short-circuiting on the first failure and returning the exact error
string of the first violated rule, and returns `{valid: true}` when all
rules pass; in particular `{ssnLast4:"12a4", dob:"2000-01-01"}` yields
the "must contain only numbers" error and
`{ssnLast4:"1234", dob:"1990-06-15"}` is valid. -/
theorem validateKBAData_rule_order :
    ∀ (now : JsInstant) (kba : KBAData),
    (kba.ssnLast4 = "" ∨ kba.ssnLast4.length ≠ 4 →
      validateKBAData now kba =
        ⟨false, some "SSN last 4 digits must be exactly 4 digits"⟩) ∧
    (¬(kba.ssnLast4 = "" ∨ kba.ssnLast4.length ≠ 4) →
      ¬ matchesD4 kba.ssnLast4 →
      validateKBAData now kba =
        ⟨false, some "SSN last 4 digits must contain only numbers"⟩) ∧
    (¬(kba.ssnLast4 = "" ∨ kba.ssnLast4.length ≠ 4) →
      matchesD4 kba.ssnLast4 → kba.dob = "" →
      validateKBAData now kba = ⟨false, some "Date of birth is required"⟩) ∧
    (¬(kba.ssnLast4 = "" ∨ kba.ssnLast4.length ≠ 4) →
      matchesD4 kba.ssnLast4 → kba.dob ≠ "" →
      ¬ matchesYMDFormat kba.dob →
      validateKBAData now kba =
        ⟨false, some "Date of birth must be in YYYY-MM-DD format"⟩) ∧
    (¬(kba.ssnLast4 = "" ∨ kba.ssnLast4.length ≠ 4) →
      matchesD4 kba.ssnLast4 → kba.dob ≠ "" →
      matchesYMDFormat kba.dob →
      ¬ isValidYMD (yearOf kba.dob) (monthOf kba.dob) (dayOf kba.dob) →
      validateKBAData now kba = ⟨false, some "Invalid date of birth"⟩) ∧
    (¬(kba.ssnLast4 = "" ∨ kba.ssnLast4.length ≠ 4) →
      matchesD4 kba.ssnLast4 → kba.dob ≠ "" →
      matchesYMDFormat kba.dob →
      isValidYMD (yearOf kba.dob) (monthOf kba.dob) (dayOf kba.dob) →
      ymdToMs (yearOf kba.dob) (monthOf kba.dob) (dayOf kba.dob) > now.toMs →
      validateKBAData now kba =
        ⟨false, some "Date of birth cannot be in the future"⟩) ∧
    (¬(kba.ssnLast4 = "" ∨ kba.ssnLast4.length ≠ 4) →
      matchesD4 kba.ssnLast4 → kba.dob ≠ "" →
      matchesYMDFormat kba.dob →
      isValidYMD (yearOf kba.dob) (monthOf kba.dob) (dayOf kba.dob) →
      ¬(ymdToMs (yearOf kba.dob) (monthOf kba.dob) (dayOf kba.dob) > now.toMs) →
      ymdToMs (yearOf kba.dob) (monthOf kba.dob) (dayOf kba.dob) < minDateMs now →
      validateKBAData now kba =
        ⟨false, some "Date of birth is too far in the past"⟩) ∧
    (¬(kba.ssnLast4 = "" ∨ kba.ssnLast4.length ≠ 4) →
      matchesD4 kba.ssnLast4 → kba.dob ≠ "" →
      matchesYMDFormat kba.dob →
      isValidYMD (yearOf kba.dob) (monthOf kba.dob) (dayOf kba.dob) →
      ¬(ymdToMs (yearOf kba.dob) (monthOf kba.dob) (dayOf kba.dob) > now.toMs) →
      ¬(ymdToMs (yearOf kba.dob) (monthOf kba.dob) (dayOf kba.dob) < minDateMs now) →
      validateKBAData now kba = ⟨true, none⟩) ∧
    validateKBAData sampleNow ⟨"12a4", "2000-01-01"⟩ =
      ⟨false, some "SSN last 4 digits must contain only numbers"⟩ ∧
    validateKBAData sampleNow ⟨"1234", "2999-01-01"⟩ =
      ⟨false, some "Date of birth cannot be in the future"⟩ ∧
    validateKBAData sampleNow ⟨"1234", "1850-01-01"⟩ =
      ⟨false, some "Date of birth is too far in the past"⟩ ∧
    validateKBAData sampleNow ⟨"1234", "1990-06-15"⟩ = ⟨true, none⟩ := by
  intro now kba
  refine ⟨?_, ?_, ?_, ?_, ?_, ?_, ?_, ?_, by decide, by decide, by decide, by decide⟩
  all_goals
    intros
    simp only [validateKBAData]
    split <;> simp_all

/-- Witness for C5: the rule implications instantiated at concrete
inputs. -/
theorem validateKBAData_rule_order_witness :
    validateKBAData sampleNow ⟨"", "1990-06-15"⟩ =
      ⟨false, some "SSN last 4 digits must be exactly 4 digits"⟩ ∧
    validateKBAData sampleNow ⟨"12a4", "1990-06-15"⟩ =
      ⟨false, some "SSN last 4 digits must contain only numbers"⟩ ∧
    validateKBAData sampleNow ⟨"1234", ""⟩ =
      ⟨false, some "Date of birth is required"⟩ ∧
    validateKBAData sampleNow ⟨"1234", "1990/06/15"⟩ =
      ⟨false, some "Date of birth must be in YYYY-MM-DD format"⟩ ∧
    validateKBAData sampleNow ⟨"1234", "1990-02-30"⟩ =
      ⟨false, some "Invalid date of birth"⟩ ∧
    validateKBAData sampleNow ⟨"1234", "2999-01-01"⟩ =
      ⟨false, some "Date of birth cannot be in the future"⟩ ∧
    validateKBAData sampleNow ⟨"1234", "1850-01-01"⟩ =
      ⟨false, some "Date of birth is too far in the past"⟩ ∧
    validateKBAData sampleNow ⟨"1234", "1990-06-15"⟩ = ⟨true, none⟩ :=
  ⟨(validateKBAData_rule_order sampleNow ⟨"", "1990-06-15"⟩).1 (Or.inl rfl),
   (validateKBAData_rule_order sampleNow ⟨"12a4", "1990-06-15"⟩).2.1
     (by decide) (by decide),
   (validateKBAData_rule_order sampleNow ⟨"1234", ""⟩).2.2.1
     (by decide) (by decide) rfl,
   (validateKBAData_rule_order sampleNow ⟨"1234", "1990/06/15"⟩).2.2.2.1
     (by decide) (by decide) (by decide) (by decide),
   (validateKBAData_rule_order sampleNow ⟨"1234", "1990-02-30"⟩).2.2.2.2.1
     (by decide) (by decide) (by decide) (by decide) (by decide),
   (validateKBAData_rule_order sampleNow ⟨"1234", "2999-01-01"⟩).2.2.2.2.2.1
     (by decide) (by decide) (by decide) (by decide) (by decide) (by decide),
   (validateKBAData_rule_order sampleNow ⟨"1234", "1850-01-01"⟩).2.2.2.2.2.2.1
     (by decide) (by decide) (by decide) (by decide) (by decide) (by decide)
     (by decide),
   (validateKBAData_rule_order sampleNow ⟨"1234", "1990-06-15"⟩).2.2.2.2.2.2.2.1
     (by decide) (by decide) (by decide) (by decide) (by decide) (by decide)
     (by decide)⟩

end ClaimC5

section ClaimC7

open Dashboard

/-- C7: the dashboard's single-provider toggle snapshots the loaded
provider list and optimistically sets only the targeted provider's
`consented` flag to the flipped value; when the network call fails, the
final provider list is exactly the pre-toggle snapshot, so the toggled
provider's flag returns to its prior value and every other provider's
entry is unchanged. -/
theorem handleToggleConsent_rollback :
    ∀ (providers : List ProviderWithConsent) (providerId : String)
      (currentStatus : Bool) (networkFails : Bool),
    (networkFails = true →
      (handleToggleConsent providers providerId currentStatus networkFails).final
        = providers) ∧
    (∀ i : Nat,
      (handleToggleConsent providers providerId currentStatus
          networkFails).optimistic.get? i =
        (providers.get? i).map fun p =>
          if p.id = providerId then { p with consented := !currentStatus }
          else p) := by
  intro ps pid cur nf
  constructor
  · intro h
    simp [handleToggleConsent, h]
  · intro i
    simp [handleToggleConsent, optimisticToggle]

/-- Witness for C7: a failing toggle on a concrete two-provider list
restores the exact pre-toggle list. -/
theorem handleToggleConsent_rollback_witness :
    (handleToggleConsent
      [⟨"p1", "Denver Health", none, true⟩, ⟨"p2", "UCHealth", none, false⟩]
      "p1" true true).final =
      [⟨"p1", "Denver Health", none, true⟩, ⟨"p2", "UCHealth", none, false⟩] :=
  (handleToggleConsent_rollback
    [⟨"p1", "Denver Health", none, true⟩, ⟨"p2", "UCHealth", none, false⟩]
    "p1" true true).1 rfl

end ClaimC7

section ClaimC8

open JsRuntime ApiClientModel

/-- C8 counterexample: the claim says that when the server responded
with an error status the message is the response body's `message` field
or, failing that, the transport's own message — but for a response body
without a `message` and an empty transport message the code produces the
fallback constant "An error occurred", which is neither. -/
theorem handleError_claim_counterexample :
    handleError ⟨some ⟨500, none⟩, true, ""⟩ ≠
      handleErrorClaimed ⟨some ⟨500, none⟩, true, ""⟩ ∧
    (handleError ⟨some ⟨500, none⟩, true, ""⟩).message = "An error occurred" := by
  constructor
  · decide
  · rfl

/-- C8 (amended): every transport failure is normalized into one
uniform error carrying a message, an optional status code, and the
original cause, with three cases: (a) server responded with an error
status — message is the body's `message` field or, failing that, the
transport's own message, with final fallback "An error occurred" when
both are empty/absent, and the status code is the response's; (b)
request sent but no response — the fixed connection message and no
status code; (c) request not constructed/sent — the transport's own
message, or "Request failed" when it is empty, and no status code. -/
theorem handleError_normalization :
    ∀ e : AxiosErrorModel,
    (handleError e).originalError = e ∧
    (∀ r, e.response = some r →
      handleError e =
        ⟨strOr (r.dataMessage.getD "") (strOr e.message "An error occurred"),
          some r.status, e⟩) ∧
    (e.response = none → e.hasRequest = true →
      handleError e =
        ⟨"No response from server. Please check your connection.", none, e⟩) ∧
    (e.response = none → e.hasRequest = false →
      handleError e = ⟨strOr e.message "Request failed", none, e⟩) := by
  intro e
  refine ⟨?_, ?_, ?_, ?_⟩
  · unfold handleError
    cases h : e.response with
    | some r => rfl
    | none => by_cases hr : e.hasRequest <;> simp [hr]
  · intro r hr
    simp [handleError, hr]
  · intro hn hr
    simp [handleError, hn, hr]
  · intro hn hr
    simp [handleError, hn, hr]

/-- Witness for C8's amended theorem: the three cases at concrete
errors. -/
theorem handleError_normalization_witness :
    handleError ⟨some ⟨404, some "Not found"⟩, true, "Request failed with status code 404"⟩ =
      ⟨"Not found", some 404,
        ⟨some ⟨404, some "Not found"⟩, true, "Request failed with status code 404"⟩⟩ ∧
    handleError ⟨none, true, "timeout exceeded"⟩ =
      ⟨"No response from server. Please check your connection.", none,
        ⟨none, true, "timeout exceeded"⟩⟩ ∧
    handleError ⟨none, false, "bad config"⟩ =
      ⟨"bad config", none, ⟨none, false, "bad config"⟩⟩ := by
  refine ⟨?_, ?_, ?_⟩
  · have h := (handleError_normalization
      ⟨some ⟨404, some "Not found"⟩, true, "Request failed with status code 404"⟩).2.1
      ⟨404, some "Not found"⟩ rfl
    simpa [strOr] using h
  · exact (handleError_normalization ⟨none, true, "timeout exceeded"⟩).2.2.1 rfl rfl
  · have h := (handleError_normalization ⟨none, false, "bad config"⟩).2.2.2 rfl rfl
    simpa [strOr] using h

end ClaimC8

section ClaimC9

open JsRuntime Legacy

/-- C9: `findAndVerifyPatient` returns `perfect_match` with the seeded
patient exactly when the submitted full name, lower-cased and trimmed,
equals the seeded patient's name "Alex Johnson" lower-cased; every other
full name (or an absent one) gives `no_match`, and none of the other
submitted fields influence the result. -/
theorem findAndVerifyPatient_name_only :
    ∀ pl : VerificationPayload,
    (pl.fullName.map (fun s => jsTrim (jsToLower s)) =
        some (jsToLower "Alex Johnson") →
      findAndVerifyPatient pl = .perfect_match mockPatient) ∧
    (pl.fullName.map (fun s => jsTrim (jsToLower s)) ≠
        some (jsToLower "Alex Johnson") →
      findAndVerifyPatient pl = .no_match) ∧
    (∀ pl2 : VerificationPayload, pl.fullName = pl2.fullName →
      findAndVerifyPatient pl = findAndVerifyPatient pl2) := by
  intro pl
  refine ⟨?_, ?_, ?_⟩
  · intro h
    simp only [findAndVerifyPatient, mockPatient]
    rw [if_pos]
    exact h
  · intro h
    simp only [findAndVerifyPatient, mockPatient]
    rw [if_neg]
    exact h
  · intro pl2 h
    simp only [findAndVerifyPatient, h]

/-- Witness for C9: a differently-cased, padded name with entirely
different DOB/SSN/address/Medicaid fields still gives a
`perfect_match`, and a different name gives `no_match`. -/
theorem findAndVerifyPatient_name_only_witness :
    findAndVerifyPatient
      ⟨some "  ALEX johnson ", some "1900-01-01", some "0000",
        some "nowhere", some "X999"⟩ = .perfect_match mockPatient ∧
    findAndVerifyPatient
      ⟨some "Sam Smith", some "1985-05-15", some "6789",
        some "123 Main St", some "A123456789"⟩ = .no_match :=
  ⟨(findAndVerifyPatient_name_only
      ⟨some "  ALEX johnson ", some "1900-01-01", some "0000",
        some "nowhere", some "X999"⟩).1 (by decide),
   (findAndVerifyPatient_name_only
      ⟨some "Sam Smith", some "1985-05-15", some "6789",
        some "123 Main St", some "A123456789"⟩).2.1 (by decide)⟩

end ClaimC9

section ClaimC10

open Legacy

/-- C10: `updateSharingPreferences('12345', prefs)` resolves with a
patient whose `sharingPreferences` is exactly the supplied list, but
never mutates the stored mock patient: the store is unchanged and a
subsequent `getPatientData('12345')` still returns the originally
seeded patient with the seeded preferences. -/
theorem updateSharingPreferences_no_persist :
    ∀ prefs : List SharingPreference,
    (updateSharingPreferences initStore "12345" prefs).2 = initStore ∧
    (updateSharingPreferences initStore "12345" prefs).1 =
      .ok { mockPatient with sharingPreferences := prefs } ∧
    getPatientData (updateSharingPreferences initStore "12345" prefs).2 "12345"
      = some mockPatient ∧
    (getPatientData (updateSharingPreferences initStore "12345" prefs).2
        "12345").map Patient.sharingPreferences =
      some [⟨"p001", true⟩, ⟨"p002", false⟩, ⟨"p003", true⟩, ⟨"p005", true⟩] := by
  intro prefs
  refine ⟨rfl, ?_, rfl, rfl⟩
  simp [updateSharingPreferences, initStore, mockPatient]

end ClaimC10

section ClaimC6

open Timeline

theorem timelineStep_inv (st : TimelineState) (op : TimelineOp)
    (h : TimelineInv st) : TimelineInv (timelineStep st op) := by
  obtain ⟨hlen, hpw, hid⟩ := h
  cases op with
  | add e =>
    simp only [timelineStep, addEvent]
    by_cases hp : st.isPaused
    · simpa [hp] using ⟨hlen, hpw, hid⟩
    · simp only [hp, if_false, Bool.false_eq_true]
      refine ⟨?_, ?_, ?_⟩
      · simp
      · refine List.Pairwise.sublist (List.take_sublist _ _) ?_
        exact List.Pairwise.cons (fun b hb => hid b hb) hpw
      · intro ev hev
        have hmem := List.mem_of_mem_take hev
        rcases List.mem_cons.mp hmem with h1 | h2
        · subst h1; exact Nat.lt_succ_self _
        · exact Nat.lt_succ_of_lt (hid ev h2)
  | clear =>
    simp [timelineStep, clearEvents, TimelineInv]
  | pause =>
    exact ⟨hlen, hpw, hid⟩

theorem runTimeline_inv (st : TimelineState) (ops : List TimelineOp)
    (h : TimelineInv st) : TimelineInv (runTimeline st ops) := by
  induction ops generalizing st with
  | nil => exact h
  | cons op rest ih => exact ih _ (timelineStep_inv st op h)

theorem take_append_take {α : Type} (l m : List α) (n : Nat) :
    (l ++ m.take n).take n = (l ++ m).take n := by
  rw [List.take_append_eq_append_take, List.take_append_eq_append_take,
    List.take_take, Nat.min_eq_left (Nat.sub_le n l.length)]

theorem mkEvents_length (t : Nat) (es : List ActivityEventInput) :
    (mkEvents t es).length = es.length := by
  induction es generalizing t with
  | nil => rfl
  | cons e es ih => simp [mkEvents, ih]

/-- An unpaused run of pure `addEvent` calls: the resulting list is the
new events in reverse arrival order, prepended to the old list, capped
at 100. -/
theorem runTimeline_adds (es : List ActivityEventInput) (st : TimelineState)
    (hp : st.isPaused = false) (hlen : st.events.length ≤ 100) :
    runTimeline st (es.map TimelineOp.add) =
      ⟨((mkEvents st.tick es).reverse ++ st.events).take 100, false,
        st.tick + es.length⟩ := by
  induction es generalizing st with
  | nil =>
    cases st with
    | mk evs p t =>
      simp only [runTimeline, List.map_nil, List.foldl_nil, mkEvents,
        List.reverse_nil, List.nil_append, List.length_nil, Nat.add_zero]
      simp only at hp hlen
      subst hp
      rw [List.take_of_length_le hlen]
  | cons e es ih =>
    simp only [List.map_cons, runTimeline, List.foldl_cons]
    have hstep : timelineStep st (TimelineOp.add e) =
        ⟨(⟨st.tick, st.tick, e⟩ :: st.events).take 100, false, st.tick + 1⟩ := by
      simp [timelineStep, addEvent, hp]
    rw [hstep]
    have hlen2 : ((⟨st.tick, st.tick, e⟩ :: st.events).take 100).length ≤ 100 := by
      simp
    have := ih ⟨(⟨st.tick, st.tick, e⟩ :: st.events).take 100, false,
      st.tick + 1⟩ rfl hlen2
    simp only [runTimeline] at this
    rw [this]
    simp only [mkEvents, List.reverse_cons, List.append_assoc]
    congr 1
    · rw [take_append_take]
      simp
    · rw [List.length_cons]
      omega

/-- C6: over every sequence of `addEvent`/`clearEvents`/`togglePause`
operations the event list never exceeds 100 entries and is ordered
newest-first (ids strictly decreasing from the head); `addEvent` leaves
the state unchanged while paused; and pushing 150 sequential events
while unpaused leaves exactly the newest 100 (the accepted events in
reverse arrival order, the oldest 50 dropped). -/
theorem activityTimeline_capacity :
    (∀ ops : List TimelineOp,
      (runTimeline initTimeline ops).events.length ≤ 100 ∧
      (runTimeline initTimeline ops).events.Pairwise
        (fun a b => b.id < a.id)) ∧
    (∀ (st : TimelineState) (e : ActivityEventInput),
      st.isPaused = true → addEvent st e = st) ∧
    (∀ es : List ActivityEventInput, es.length = 150 →
      (runTimeline initTimeline (es.map TimelineOp.add)).events =
        (mkEvents 0 es).reverse.take 100 ∧
      (runTimeline initTimeline (es.map TimelineOp.add)).events.length = 100) := by
  refine ⟨?_, ?_, ?_⟩
  · intro ops
    have h := runTimeline_inv initTimeline ops
      (by exact ⟨by simp [initTimeline], by simp [initTimeline], by simp [initTimeline]⟩)
    exact ⟨h.1, h.2.1⟩
  · intro st e h
    simp [addEvent, h]
  · intro es hes
    have h := runTimeline_adds es initTimeline rfl (by simp [initTimeline])
    have hev : (runTimeline initTimeline (es.map TimelineOp.add)).events =
        (mkEvents 0 es).reverse.take 100 := by
      rw [h]
      simp [initTimeline]
    refine ⟨hev, ?_⟩
    rw [hev]
    simp [mkEvents_length, hes]

/-- Witness for C6: the paused no-op at a concrete state, and the
150-event run over a concrete event list. -/
theorem activityTimeline_capacity_witness :
    addEvent ⟨[⟨0, 0, ⟨"INFO", "t", none, none⟩⟩], true, 1⟩
        ⟨"ERROR", "x", none, none⟩ =
      ⟨[⟨0, 0, ⟨"INFO", "t", none, none⟩⟩], true, 1⟩ ∧
    (runTimeline initTimeline
        ((List.replicate 150 (⟨"INFO", "tick", none, none⟩ :
            ActivityEventInput)).map TimelineOp.add)).events.length = 100 :=
  ⟨activityTimeline_capacity.2.1 ⟨[⟨0, 0, ⟨"INFO", "t", none, none⟩⟩], true, 1⟩
      ⟨"ERROR", "x", none, none⟩ rfl,
   (activityTimeline_capacity.2.2 (List.replicate 150 ⟨"INFO", "tick", none, none⟩)
      (by simp)).2⟩

end ClaimC6

namespace Backend

theorem find?_map_comm {α : Type} (f : α → α) (p : α → Bool)
    (hp : ∀ a, p (f a) = p a) (l : List α) :
    (l.map f).find? p = (l.find? p).map f := by
  induction l with
  | nil => rfl
  | cons a l ih =>
    by_cases h : p a
    · simp [List.find?_cons, hp, h]
    · simp only [List.map_cons, List.find?_cons, hp a, h]
      simpa [h] using ih

theorem filter_map_comm {α : Type} (f : α → α) (q : α → Bool)
    (hq : ∀ a, q (f a) = q a) (l : List α) :
    (l.map f).filter q = (l.filter q).map f := by
  induction l with
  | nil => rfl
  | cons a l ih =>
    by_cases h : q a <;> simp [List.filter_cons, hq, h, ih]

theorem find?_eq_head_filter {α : Type} (q : α → Bool) (l : List α) :
    l.find? q = (l.filter q).head? := by
  induction l with
  | nil => rfl
  | cons a l ih =>
    cases h : q a with
    | true =>
      rw [List.find?_cons_of_pos _ h, List.filter_cons_of_pos h]
      rfl
    | false =>
      rw [List.find?_cons_of_neg _ (by simp [h]), List.filter_cons_of_neg (by simp [h])]
      exact ih

theorem get_verification_token_mark (db : FirestoreDB) (t t' : String) :
    get_verification_token (mark_token_used db t) t' =
      (get_verification_token db t').map
        (fun r => if r.token == t then { r with used := true } else r) := by
  unfold get_verification_token mark_token_used
  exact find?_map_comm _ _
    (by intro a; by_cases h : a.token == t <;> simp [h]) _

/-- C3: `verify_token` fails (returns `None`, database untouched) when
the token is unknown, already used, or expired; on success it returns
the associated email and marks the token used, so a second call with
the same token fails as invalid even when the token has not expired. -/
theorem verify_token_single_use :
    (∀ (db : FirestoreDB) (now : Time) (t : String),
      get_verification_token db t = none →
      verify_token db now t = (none, db)) ∧
    (∀ (db : FirestoreDB) (now : Time) (t : String) (td : TokenRecord),
      get_verification_token db t = some td → td.used = true →
      verify_token db now t = (none, db)) ∧
    (∀ (db : FirestoreDB) (now : Time) (t : String) (td : TokenRecord),
      get_verification_token db t = some td → td.expires_at < now →
      verify_token db now t = (none, db)) ∧
    (∀ (db : FirestoreDB) (now : Time) (t : String) (td : TokenRecord),
      get_verification_token db t = some td → td.used = false →
      ¬ td.expires_at < now →
      (verify_token db now t).1 = some td.email ∧
      get_verification_token (verify_token db now t).2 t =
        some { td with used := true }) ∧
    (∀ (db : FirestoreDB) (now now2 : Time) (t : String) (td : TokenRecord),
      get_verification_token db t = some td → td.used = false →
      ¬ td.expires_at < now →
      (verify_token (verify_token db now t).2 now2 t).1 = none) := by
  have hmarked : ∀ (db : FirestoreDB) (now : Time) (t : String) (td : TokenRecord),
      get_verification_token db t = some td → td.used = false →
      ¬ td.expires_at < now →
      (verify_token db now t).1 = some td.email ∧
      get_verification_token (verify_token db now t).2 t =
        some { td with used := true } := by
    intro db now t td h hu he
    have hfind : db.verification_tokens.find? (fun r => r.token == t) = some td := h
    have htok : (td.token == t) = true := by
      simpa using List.find?_some hfind
    constructor
    · simp [verify_token, h, hu, he]
    · have : (verify_token db now t).2 = mark_token_used db t := by
        simp [verify_token, h, hu, he]
      rw [this, get_verification_token_mark, h]
      have htok2 : td.token = t := by simpa using htok
      simp [htok2]
  refine ⟨?_, ?_, ?_, hmarked, ?_⟩
  · intro db now t h
    simp [verify_token, h]
  · intro db now t td h hu
    simp [verify_token, h, hu]
  · intro db now t td h he
    by_cases hu : td.used <;> simp [verify_token, h, hu, he]
  · intro db now now2 t td h hu he
    have h2 := (hmarked db now t td h hu he).2
    generalize (verify_token db now t).2 = db2 at h2
    simp [verify_token, h2]

/-- Witness for C3: a concrete fresh token is consumed once and fails
on the second call. -/
theorem verify_token_single_use_witness :
    verify_token (⟨[], [⟨"T", "a@b.c", 0, 100, false⟩], [], [], 0⟩ :
        FirestoreDB) 50 "missing" = (none, ⟨[], [⟨"T", "a@b.c", 0, 100, false⟩], [], [], 0⟩) ∧
    (verify_token (⟨[], [⟨"T", "a@b.c", 0, 100, false⟩], [], [], 0⟩ :
        FirestoreDB) 50 "T").1 = some "a@b.c" ∧
    (verify_token (verify_token (⟨[], [⟨"T", "a@b.c", 0, 100, false⟩], [], [], 0⟩ :
        FirestoreDB) 50 "T").2 60 "T").1 = none :=
  ⟨verify_token_single_use.1 _ 50 "missing" (by decide),
   ((verify_token_single_use.2.2.2.1 _ 50 "T" ⟨"T", "a@b.c", 0, 100, false⟩
      (by decide) rfl (by decide)).1),
   verify_token_single_use.2.2.2.2 _ 50 60 "T" ⟨"T", "a@b.c", 0, 100, false⟩
      (by decide) rfl (by decide)⟩

end Backend

namespace Backend

theorem get_user_log_action (db : FirestoreDB) (now : Time) (uid2 : String)
    (a : AuditAction) (pid ip : Option String) (uid : String) :
    get_user (log_action db now uid2 a pid ip) uid = get_user db uid := rfl

theorem get_user_update (db : FirestoreDB) (uid : String)
    (upd : UserKbaUpdate) (uid2 : String) :
    get_user (update_user db uid upd) uid2 =
      (get_user db uid2).map
        (fun u => if u.uid == uid then applyUserKbaUpdate upd u else u) := by
  unfold get_user update_user
  exact find?_map_comm _ _
    (by
      intro a
      by_cases h : a.uid == uid <;> simp [h, applyUserKbaUpdate])
    _

/-- C1: with a known, unlocked user at `kba_attempts = 2`, a third
mismatching `verify_identity` call sets
`kba_locked_until = now + KBA_LOCKOUT_MINUTES` (30 minutes) and returns
the lockout-duration message, not an attempts-remaining message; and
any call made while `kba_locked_until` is set and still in the future
returns "Account temporarily locked. Try again later." and leaves the
database (in particular `kba_attempts`) untouched. -/
theorem verify_identity_lockout :
    (∀ (db : FirestoreDB) (now : Time) (uid ssn dob : String)
      (ip : Option String) (u : UserRecord),
      get_user db uid = some u →
      lockActive u.kba_locked_until now = false →
      u.kba_attempts = 2 →
      (verify_hash ssn u.ssn_hash && verify_hash dob u.dob_hash) = false →
      (verify_identity db now uid ssn dob ip).1 =
        ⟨false, "Account locked for 30 minutes."⟩ ∧
      get_user (verify_identity db now uid ssn dob ip).2 uid =
        some { u with kba_attempts := 3,
                      kba_locked_until := some (now + KBA_LOCKOUT_MINUTES) }) ∧
    (∀ (db : FirestoreDB) (now : Time) (uid ssn dob : String)
      (ip : Option String) (u : UserRecord) (t : Time),
      get_user db uid = some u →
      u.kba_locked_until = some t → now < t →
      verify_identity db now uid ssn dob ip =
        (⟨false, "Account temporarily locked. Try again later."⟩, db)) := by
  constructor
  · intro db now uid ssn dob ip u hu hlock hatt hmatch
    have hfind : db.users.find? (fun v => v.uid == uid) = some u := hu
    have huid : u.uid = uid := by
      simpa using List.find?_some hfind
    have hres : verify_identity db now uid ssn dob ip =
        (⟨false, String.append "Account locked for "
            (String.append (toString KBA_LOCKOUT_MINUTES) " minutes.")⟩,
          log_action
            (update_user db uid
              ⟨none, some (u.kba_attempts + 1),
                some (some (now + KBA_LOCKOUT_MINUTES))⟩)
            now uid .KBA_FAILED none ip) := by
      simp only [verify_identity, hu, hlock, Bool.false_eq_true, if_false,
        hmatch, hatt]
      norm_num [MAX_KBA_ATTEMPTS]
    constructor
    · rw [hres]
      show VerifyResult.mk false (String.append "Account locked for "
        (String.append (toString KBA_LOCKOUT_MINUTES) " minutes.")) = _
      decide
    · rw [hres, get_user_log_action, get_user_update, hu]
      simp [huid, applyUserKbaUpdate, hatt]
  · intro db now uid ssn dob ip u t hu hl hn
    have : lockActive u.kba_locked_until now = true := by
      simp [lockActive, hl, hn]
    simp [verify_identity, hu, this]

/-- Witness for C1: a concrete user at two failed attempts is locked by
a third mismatch, and a locked user is rejected without change. -/
theorem verify_identity_lockout_witness :
    (verify_identity
        (⟨[⟨"u1", "a@b.c", hash_value "1234", hash_value "1990-01-01", 2,
            none, false⟩], [], [], [], 0⟩ : FirestoreDB)
        1000 "u1" "9999" "1990-01-01" none).1 =
      ⟨false, "Account locked for 30 minutes."⟩ ∧
    verify_identity
        (⟨[⟨"u1", "a@b.c", hash_value "1234", hash_value "1990-01-01", 2,
            some 1030, false⟩], [], [], [], 0⟩ : FirestoreDB)
        1000 "u1" "1234" "1990-01-01" none =
      (⟨false, "Account temporarily locked. Try again later."⟩,
        ⟨[⟨"u1", "a@b.c", hash_value "1234", hash_value "1990-01-01", 2,
            some 1030, false⟩], [], [], [], 0⟩) :=
  ⟨(verify_identity_lockout.1
      (⟨[⟨"u1", "a@b.c", hash_value "1234", hash_value "1990-01-01", 2,
          none, false⟩], [], [], [], 0⟩ : FirestoreDB)
      1000 "u1" "9999" "1990-01-01" none
      ⟨"u1", "a@b.c", hash_value "1234", hash_value "1990-01-01", 2,
        none, false⟩
      (by decide) rfl rfl (by decide)).1,
   verify_identity_lockout.2
      (⟨[⟨"u1", "a@b.c", hash_value "1234", hash_value "1990-01-01", 2,
          some 1030, false⟩], [], [], [], 0⟩ : FirestoreDB)
      1000 "u1" "1234" "1990-01-01" none
      ⟨"u1", "a@b.c", hash_value "1234", hash_value "1990-01-01", 2,
        some 1030, false⟩
      1030 (by decide) rfl (by decide)⟩

end Backend

namespace Backend

theorem verify_identity_step_monotone (db : FirestoreDB) (c : KbaCall)
    (uid : String) (u : UserRecord)
    (hu : get_user db uid = some u)
    (hnm : c.uid = uid →
      ¬(verify_hash c.ssn_last4 u.ssn_hash = true ∧
        verify_hash c.dob u.dob_hash = true)) :
    ∃ u', get_user
        (verify_identity db c.now c.uid c.ssn_last4 c.dob c.ip_address).2 uid
        = some u' ∧
      u'.uid = u.uid ∧ u'.ssn_hash = u.ssn_hash ∧ u'.dob_hash = u.dob_hash ∧
      u.kba_attempts ≤ u'.kba_attempts ∧
      (u.kba_locked_until.isSome = true → u'.kba_locked_until.isSome = true) := by
  have hfind : db.users.find? (fun v => v.uid == uid) = some u := hu
  have huid : u.uid = uid := by simpa using List.find?_some hfind
  cases hc : get_user db c.uid with
  | none =>
    refine ⟨u, ?_, rfl, rfl, rfl, Nat.le_refl _, fun h => h⟩
    simpa [verify_identity, hc] using hu
  | some user =>
    by_cases hl : lockActive user.kba_locked_until c.now = true
    · refine ⟨u, ?_, rfl, rfl, rfl, Nat.le_refl _, fun h => h⟩
      simpa [verify_identity, hc, hl] using hu
    · by_cases hm : (verify_hash c.ssn_last4 user.ssn_hash &&
          verify_hash c.dob user.dob_hash) = true
      · have hne : ¬ c.uid = uid := by
          intro he
          rw [he, hu] at hc
          injection hc with he2
          refine hnm he ?_
          rw [he2]
          simpa using hm
        have hneq : ¬ u.uid = c.uid := by
          rw [huid]
          exact fun h => hne h.symm
        refine ⟨u, ?_, rfl, rfl, rfl, Nat.le_refl _, fun h => h⟩
        have h2 : (verify_identity db c.now c.uid c.ssn_last4 c.dob
            c.ip_address).2 =
            log_action (update_user db c.uid ⟨some true, some 0, some none⟩)
              c.now c.uid .KBA_VERIFIED none c.ip_address := by
          simp [verify_identity, hc, hl, hm]
        rw [h2, get_user_log_action, get_user_update, hu]
        simp [hneq]
      · have h2 : (verify_identity db c.now c.uid c.ssn_last4 c.dob
            c.ip_address).2 =
            log_action
              (update_user db c.uid
                (if MAX_KBA_ATTEMPTS ≤ user.kba_attempts + 1 then
                  ⟨none, some (user.kba_attempts + 1),
                    some (some (c.now + KBA_LOCKOUT_MINUTES))⟩
                else ⟨none, some (user.kba_attempts + 1), none⟩))
              c.now c.uid .KBA_FAILED none c.ip_address := by
          simp [verify_identity, hc, hl, hm]
        rw [h2, get_user_log_action, get_user_update, hu]
        by_cases hcu : c.uid = uid
        · rw [hcu, hu] at hc
          injection hc with he2
          subst he2
          have hbeq2 : u.uid = c.uid := by rw [huid, hcu]
          by_cases hmax : MAX_KBA_ATTEMPTS ≤ u.kba_attempts + 1
          · refine ⟨applyUserKbaUpdate
                ⟨none, some (u.kba_attempts + 1),
                  some (some (c.now + KBA_LOCKOUT_MINUTES))⟩ u,
              ?_, rfl, rfl, rfl, ?_, ?_⟩
            · simp [hmax, hbeq2]
            · exact Nat.le_succ _
            · intro _
              simp [applyUserKbaUpdate]
          · refine ⟨applyUserKbaUpdate
                ⟨none, some (u.kba_attempts + 1), none⟩ u,
              ?_, rfl, rfl, rfl, ?_, ?_⟩
            · simp [hmax, hbeq2]
            · exact Nat.le_succ _
            · intro h
              simpa [applyUserKbaUpdate] using h
        · have hneq : ¬ u.uid = c.uid := by
            rw [huid]
            exact fun h => hcu h.symm
          refine ⟨u, ?_, rfl, rfl, rfl, Nat.le_refl _, fun h => h⟩
          simp [hneq]

/-- C2: over every sequence of `verify_identity` calls, a user's
`kba_attempts` never decreases and a set `kba_locked_until` is never
cleared unless some call in the sequence is a fully successful
verification (both submitted fields match the stored hashes) for that
user; and a call made during an active lockout leaves the database
entirely unchanged. -/
theorem kba_state_reset_only_on_success :
    (∀ (db : FirestoreDB) (calls : List KbaCall) (uid : String)
      (u : UserRecord),
      get_user db uid = some u →
      (∀ c ∈ calls, c.uid = uid →
        ¬(verify_hash c.ssn_last4 u.ssn_hash = true ∧
          verify_hash c.dob u.dob_hash = true)) →
      ∃ u', get_user (runVerifyCalls db calls) uid = some u' ∧
        u'.ssn_hash = u.ssn_hash ∧ u'.dob_hash = u.dob_hash ∧
        u.kba_attempts ≤ u'.kba_attempts ∧
        (u.kba_locked_until.isSome = true →
          u'.kba_locked_until.isSome = true)) ∧
    (∀ (db : FirestoreDB) (c : KbaCall) (u : UserRecord) (t : Time),
      get_user db c.uid = some u →
      u.kba_locked_until = some t → c.now < t →
      (verify_identity db c.now c.uid c.ssn_last4 c.dob c.ip_address).2 = db) := by
  constructor
  · intro db calls
    induction calls generalizing db with
    | nil =>
      intro uid u hu _
      exact ⟨u, hu, rfl, rfl, Nat.le_refl _, fun h => h⟩
    | cons c rest ih =>
      intro uid u hu hnm
      obtain ⟨u1, hu1, huid1, hssn1, hdob1, hatt1, hlock1⟩ :=
        verify_identity_step_monotone db c uid u hu
          (fun he => hnm c (List.mem_cons_self c rest) he)
      obtain ⟨u2, hu2, hssn2, hdob2, hatt2, hlock2⟩ :=
        ih _ uid u1 hu1 (by
          intro c2 hc2 he
          rw [hssn1, hdob1]
          exact hnm c2 (List.mem_cons_of_mem c hc2) he)
      exact ⟨u2, hu2, by rw [hssn2, hssn1], by rw [hdob2, hdob1],
        Nat.le_trans hatt1 hatt2, fun h => hlock2 (hlock1 h)⟩
  · intro db c u t hu hl hn
    have hla : lockActive u.kba_locked_until c.now = true := by
      simp [lockActive, hl, hn]
    simp [verify_identity, hu, hla]

/-- Witness for C2: two mismatching calls against a concrete user leave
the attempt counter non-decreasing, and a locked-out call leaves the
concrete database unchanged. -/
theorem kba_state_reset_only_on_success_witness :
    (∃ u', get_user
        (runVerifyCalls
          (⟨[⟨"u1", "a@b.c", hash_value "1234", hash_value "1990-01-01", 0,
              none, false⟩], [], [], [], 0⟩ : FirestoreDB)
          [⟨10, "u1", "0000", "1990-01-01", none⟩,
            ⟨20, "u1", "1111", "1990-01-01", none⟩]) "u1" = some u' ∧
      u'.ssn_hash = hash_value "1234" ∧ u'.dob_hash = hash_value "1990-01-01" ∧
      0 ≤ u'.kba_attempts ∧
      ((none : Option Time).isSome = true →
        u'.kba_locked_until.isSome = true)) ∧
    (verify_identity
        (⟨[⟨"u1", "a@b.c", hash_value "1234", hash_value "1990-01-01", 3,
            some 40, false⟩], [], [], [], 0⟩ : FirestoreDB)
        30 "u1" "1234" "1990-01-01" none).2 =
      ⟨[⟨"u1", "a@b.c", hash_value "1234", hash_value "1990-01-01", 3,
          some 40, false⟩], [], [], [], 0⟩ :=
  ⟨kba_state_reset_only_on_success.1
      (⟨[⟨"u1", "a@b.c", hash_value "1234", hash_value "1990-01-01", 0,
          none, false⟩], [], [], [], 0⟩ : FirestoreDB)
      [⟨10, "u1", "0000", "1990-01-01", none⟩,
        ⟨20, "u1", "1111", "1990-01-01", none⟩] "u1"
      ⟨"u1", "a@b.c", hash_value "1234", hash_value "1990-01-01", 0,
        none, false⟩
      (by decide) (by decide),
   kba_state_reset_only_on_success.2
      (⟨[⟨"u1", "a@b.c", hash_value "1234", hash_value "1990-01-01", 3,
          some 40, false⟩], [], [], [], 0⟩ : FirestoreDB)
      ⟨30, "u1", "1234", "1990-01-01", none⟩
      ⟨"u1", "a@b.c", hash_value "1234", hash_value "1990-01-01", 3,
        some 40, false⟩
      40 (by decide) rfl (by decide)⟩

end Backend

namespace Backend

theorem countPair_eq_length_pairFilter (db : FirestoreDB) (u p : String) :
    countPair db u p = (pairFilter db u p).length := rfl

theorem pairFilter_toggle_create (db : FirestoreDB) (now : Time)
    (u p : String) (b : Bool) (ip : Option String)
    (h : pairFilter db u p = []) :
    pairFilter (toggle_consent db now u p b ip).2 u p =
      [⟨db.next_consent_id, u, p, b⟩] := by
  have hf : get_user_consent_for_provider db u p = none := by
    unfold get_user_consent_for_provider
    rw [find?_eq_head_filter]
    rw [show db.consents.filter (fun c => c.user_id == u && c.provider_id == p)
      = [] from h]
    rfl
  unfold pairFilter
  simp only [toggle_consent, hf, create_consent, log_action, create_audit_log]
  rw [List.filter_append]
  rw [show db.consents.filter (fun c => c.user_id == u && c.provider_id == p)
    = [] from h]
  simp

theorem pairFilter_toggle_update (db : FirestoreDB) (now : Time)
    (u p : String) (b : Bool) (ip : Option String) (e : ConsentRow)
    (h : pairFilter db u p = [e]) :
    pairFilter (toggle_consent db now u p b ip).2 u p =
      [{ e with consented := b }] := by
  have hf : get_user_consent_for_provider db u p = some e := by
    unfold get_user_consent_for_provider
    rw [find?_eq_head_filter]
    rw [show db.consents.filter (fun c => c.user_id == u && c.provider_id == p)
      = [e] from h]
    rfl
  unfold pairFilter
  simp only [toggle_consent, hf, update_consent, log_action, create_audit_log]
  rw [filter_map_comm _ _
    (by intro a; by_cases hcid : a.cid == e.cid <;> simp [hcid]) _]
  rw [show db.consents.filter (fun c => c.user_id == u && c.provider_id == p)
    = [e] from h]
  simp

theorem toggle_consent_audit (db : FirestoreDB) (now : Time)
    (u p : String) (b : Bool) (ip : Option String) :
    (toggle_consent db now u p b ip).2.audit_logs =
      db.audit_logs ++
        [⟨u, if b then .CONSENT_GRANTED else .CONSENT_REVOKED, some p, now, ip⟩] := by
  cases hf : get_user_consent_for_provider db u p <;>
    simp [toggle_consent, hf, update_consent, create_consent, log_action,
      create_audit_log]

theorem grantedCount_toggle_true (db : FirestoreDB) (now : Time)
    (u p : String) (ip : Option String) :
    grantedCount (toggle_consent db now u p true ip).2 u p =
      grantedCount db u p + 1 := by
  unfold grantedCount
  rw [toggle_consent_audit, List.filter_append]
  simp

theorem countPair_toggle (db : FirestoreDB) (now : Time)
    (u p : String) (b : Bool) (ip : Option String) :
    countPair (toggle_consent db now u p b ip).2 u p =
      (if countPair db u p = 0 then 1 else countPair db u p) := by
  rcases hemp : pairFilter db u p with _ | ⟨e, rest⟩
  · rw [countPair_eq_length_pairFilter, pairFilter_toggle_create db now u p b ip hemp]
    rw [countPair_eq_length_pairFilter, hemp]
    rfl
  · have hf : get_user_consent_for_provider db u p = some e := by
      unfold get_user_consent_for_provider
      rw [find?_eq_head_filter]
      rw [show db.consents.filter (fun c => c.user_id == u && c.provider_id == p)
        = e :: rest from hemp]
      rfl
    have hcount : countPair (toggle_consent db now u p b ip).2 u p =
        countPair db u p := by
      rw [countPair_eq_length_pairFilter, countPair_eq_length_pairFilter]
      unfold pairFilter
      simp only [toggle_consent, hf, update_consent, log_action, create_audit_log]
      rw [filter_map_comm _ _
        (by intro a; by_cases hcid : a.cid == e.cid <;> simp [hcid]) _]
      simp
    rw [hcount, countPair_eq_length_pairFilter, hemp]
    simp

end Backend

namespace Backend

/-- C4: `toggle_consent` upserts — the number of consent rows for the
pair becomes 1 when none existed and is otherwise unchanged — and always
appends exactly one matching audit entry (`CONSENT_GRANTED` when
consenting, `CONSENT_REVOKED` when revoking); hence two consecutive
`toggle_consent(u, p, true)` calls on a store with at most one row for
`(u, p)` leave exactly one ConsentRecord for the pair, with
`consented = true`, and exactly two additional `CONSENT_GRANTED` audit
entries — never two ConsentRecords. -/
theorem toggle_consent_upsert :
    (∀ (db : FirestoreDB) (now : Time) (u p : String) (b : Bool)
      (ip : Option String),
      countPair (toggle_consent db now u p b ip).2 u p =
        (if countPair db u p = 0 then 1 else countPair db u p) ∧
      (toggle_consent db now u p b ip).2.audit_logs =
        db.audit_logs ++
          [⟨u, if b then .CONSENT_GRANTED else .CONSENT_REVOKED,
            some p, now, ip⟩]) ∧
    (∀ (db : FirestoreDB) (now1 now2 : Time) (u p : String)
      (ip1 ip2 : Option String),
      countPair db u p ≤ 1 →
      countPair (toggle_consent (toggle_consent db now1 u p true ip1).2
          now2 u p true ip2).2 u p = 1 ∧
      (∀ c ∈ (toggle_consent (toggle_consent db now1 u p true ip1).2
          now2 u p true ip2).2.consents,
        c.user_id = u → c.provider_id = p → c.consented = true) ∧
      grantedCount (toggle_consent (toggle_consent db now1 u p true ip1).2
          now2 u p true ip2).2 u p = grantedCount db u p + 2) := by
  constructor
  · intro db now u p b ip
    exact ⟨countPair_toggle db now u p b ip, toggle_consent_audit db now u p b ip⟩
  · intro db now1 now2 u p ip1 ip2 hle
    have hpf2 : ∃ r : ConsentRow,
        pairFilter (toggle_consent (toggle_consent db now1 u p true ip1).2
          now2 u p true ip2).2 u p = [r] ∧ r.consented = true := by
      rcases hpf : pairFilter db u p with _ | ⟨e, rest⟩
      · have h1 := pairFilter_toggle_create db now1 u p true ip1 hpf
        have h2 := pairFilter_toggle_update _ now2 u p true ip2 _ h1
        exact ⟨_, h2, rfl⟩
      · have hrest : rest = [] := by
          have := hle
          rw [countPair_eq_length_pairFilter, hpf] at this
          simp only [List.length_cons] at this
          exact List.eq_nil_of_length_eq_zero (by omega)
        subst hrest
        have h1 := pairFilter_toggle_update db now1 u p true ip1 e hpf
        have h2 := pairFilter_toggle_update _ now2 u p true ip2 _ h1
        exact ⟨_, h2, rfl⟩
    obtain ⟨r, hr, hrc⟩ := hpf2
    refine ⟨?_, ?_, ?_⟩
    · rw [countPair_eq_length_pairFilter, hr]
      rfl
    · intro c hc hcu hcp
      have hmem : c ∈ pairFilter (toggle_consent
          (toggle_consent db now1 u p true ip1).2 now2 u p true ip2).2 u p := by
        unfold pairFilter
        exact List.mem_filter.mpr ⟨hc, by simp [hcu, hcp]⟩
      rw [hr] at hmem
      simp only [List.mem_singleton] at hmem
      rw [hmem]
      exact hrc
    · rw [grantedCount_toggle_true, grantedCount_toggle_true]

/-- Witness for C4: toggling the same pair twice on an empty store
yields one row, consented, and two granted audit entries. -/
theorem toggle_consent_upsert_witness :
    countPair (toggle_consent (toggle_consent
        (⟨[], [], [], [], 0⟩ : FirestoreDB) 1 "u" "p" true none).2
        2 "u" "p" true none).2 "u" "p" = 1 ∧
    grantedCount (toggle_consent (toggle_consent
        (⟨[], [], [], [], 0⟩ : FirestoreDB) 1 "u" "p" true none).2
        2 "u" "p" true none).2 "u" "p" =
      grantedCount (⟨[], [], [], [], 0⟩ : FirestoreDB) "u" "p" + 2 :=
  ⟨(toggle_consent_upsert.2 (⟨[], [], [], [], 0⟩ : FirestoreDB) 1 2 "u" "p"
      none none (by decide)).1,
   (toggle_consent_upsert.2 (⟨[], [], [], [], 0⟩ : FirestoreDB) 1 2 "u" "p"
      none none (by decide)).2.2⟩

end Backend
